import Mathlib

/-!
Verification of the MFA system authentication core.

The definitions below are a shallow embedding of the TypeScript source:
strings are Lean `String`s except in the binary encoding layer, where a
JS string is modelled as its list of UTF-16 code units (`List Nat`) and a
byte buffer as a list of byte values.  Fallible external services (the
Appwrite token issuer, the WebAuthn verifier) are passed in as explicit
oracle arguments, following the spec, which treats them as opaque
collaborators that hand back a result object or throw.
-/

namespace Mfa

/-! ## Credential encoding layer (src/unnamed/part_004 helpers)

`btoa`/`atob` are the platform base64 primitives used by
`bufferToBase64Url`/`base64UrlToBuffer`; they are modelled by the
standard base64 alphabet on code-unit lists.  `atob` is modelled on
well-formed padded base64 input; on malformed input the real primitive
throws, a behaviour no claim exercises.
-/

/-- Standard base64 alphabet: sextet value to character code. -/
def b64Char (n : Nat) : Nat :=
  if n < 26 then 65 + n
  else if n < 52 then 97 + (n - 26)
  else if n < 62 then 48 + (n - 52)
  else if n = 62 then 43
  else 47

/-- Character code back to sextet value (inverse of `b64Char`). -/
def b64Val (c : Nat) : Nat :=
  if 65 ≤ c ∧ c ≤ 90 then c - 65
  else if 97 ≤ c ∧ c ≤ 122 then c - 97 + 26
  else if 48 ≤ c ∧ c ≤ 57 then c - 48 + 52
  else if c = 43 then 62
  else if c = 47 then 63
  else 0

/-- Platform `btoa`: binary string (code units, each < 256) to padded base64. -/
def btoa : List Nat → List Nat
  | [] => []
  | [b0] => [b64Char (b0 / 4), b64Char (b0 % 4 * 16), 61, 61]
  | [b0, b1] =>
      [b64Char (b0 / 4), b64Char (b0 % 4 * 16 + b1 / 16), b64Char (b1 % 16 * 4), 61]
  | b0 :: b1 :: b2 :: rest =>
      b64Char (b0 / 4) :: b64Char (b0 % 4 * 16 + b1 / 16) ::
        b64Char (b1 % 16 * 4 + b2 / 64) :: b64Char (b2 % 64) :: btoa rest

/-- Platform `atob`: padded base64 back to the binary string it encodes. -/
def atob : List Nat → List Nat
  | c0 :: c1 :: c2 :: c3 :: rest =>
      if c2 = 61 then [b64Val c0 * 4 + b64Val c1 / 16]
      else if c3 = 61 then
        [b64Val c0 * 4 + b64Val c1 / 16, b64Val c1 % 16 * 16 + b64Val c2 / 4]
      else
        (b64Val c0 * 4 + b64Val c1 / 16) ::
          (b64Val c1 % 16 * 16 + b64Val c2 / 4) ::
          (b64Val c2 % 4 * 64 + b64Val c3) :: atob rest
  | _ => []

/-- The unpadded part of the base64 encoding: `btoa` without the trailing
`=` characters.  Used only to reason about `btoa`. -/
def b64core : List Nat → List Nat
  | [] => []
  | [b0] => [b64Char (b0 / 4), b64Char (b0 % 4 * 16)]
  | [b0, b1] =>
      [b64Char (b0 / 4), b64Char (b0 % 4 * 16 + b1 / 16), b64Char (b1 % 16 * 4)]
  | b0 :: b1 :: b2 :: rest =>
      b64Char (b0 / 4) :: b64Char (b0 % 4 * 16 + b1 / 16) ::
        b64Char (b1 % 16 * 4 + b2 / 64) :: b64Char (b2 % 64) :: b64core rest

/-- Number of `=` padding characters `btoa` appends for an input of the
given length. -/
def padLen (n : Nat) : Nat := if n % 3 = 0 then 0 else 3 - n % 3

/-- The encoder replace step sending plus to dash and slash to underscore,
per character. -/
def stdToUrl (c : Nat) : Nat := if c = 43 then 45 else if c = 47 then 95 else c

/-- The decoder replace step sending dash to plus and underscore to slash,
per character. -/
def urlToStd (c : Nat) : Nat := if c = 45 then 43 else if c = 95 then 47 else c

/-- The final encoder replace step: drop the maximal trailing run of `=`
(code 61). -/
def dropTrailingEq (l : List Nat) : List Nat :=
  ((l.reverse.dropWhile fun c => c == 61)).reverse

/-- `bufferToBase64Url` from the helper module: bytes to binary string to
`btoa`, then base64 to base64url and strip padding. -/
def bufferToBase64Url (buffer : List Nat) : List Nat :=
  dropTrailingEq ((btoa buffer).map stdToUrl)

/-- A character admissible in the mandatory part of `base64UrlRegex`. -/
def isB64UrlChar (c : Nat) : Bool :=
  decide ((65 ≤ c ∧ c ≤ 90) ∨ (97 ≤ c ∧ c ≤ 122) ∨ (48 ≤ c ∧ c ≤ 57) ∨ c = 45 ∨ c = 95)

/-- The test of `base64UrlRegex`, i.e. one or more base64url characters
followed by at most two `=`. -/
def isBase64Url (s : List Nat) : Bool :=
  let k := ((s.reverse.takeWhile fun c => c == 61)).length
  let core := s.take (s.length - k)
  decide (k ≤ 2) && !core.isEmpty && core.all isB64UrlChar

/-- `base64UrlToBuffer` from the helper module: validate, convert back to
base64, re-pad with `"==".slice(0, (4 - (len % 4)) % 4)` and `atob`. -/
def base64UrlToBuffer (s : List Nat) : Except String (List Nat) :=
  if !isBase64Url s then .error "Invalid base64url string."
  else
    let pad := min 2 ((4 - s.length % 4) % 4)
    .ok (atob (s.map urlToStd ++ List.replicate pad 61))

/-- Code-unit list to a Lean string, for fields stored as text. -/
def codesToString (l : List Nat) : String :=
  String.mk (l.map Char.ofNat)

/-! ## Identity store model -/

/-- Unified server result shape: `\x7bsuccess:true, data\x7d` or
`\x7bsuccess:false, error\x7d`. -/
inductive ServerResult (α : Type) where
  | ok (data : α)
  | err (error : String)
  deriving DecidableEq, Repr

/-- A document of the users collection.  `Option` fields model attributes
that may be null or absent on the stored document. -/
structure UserDoc where
  docId : String
  accountId : String
  userId : String
  email : String
  fullName : String
  avatar : String
  authMethod : String
  hasPasskey : Bool
  passKeyCount : Option Nat
  credentialID : Option String
  credentialPublicKey : Option String
  counter : Option Nat
  currentChallenge : Option String
  currentAuthChallenge : Option String
  deriving DecidableEq, Repr

/-- The users collection of the identity store, in document order. -/
abbrev Store : Type := List UserDoc

/-- JS falsiness of an optional string attribute: `!x` holds of null,
undefined and the empty string. -/
def falsyStr : Option String → Bool
  | none => true
  | some s => s == ""

/-- `listDocuments` with `Query.equal("email", [email])`, taking
`documents[0]` when the result is non-empty. -/
def getUserByEmail (db : Store) (email : String) : Option UserDoc :=
  (List.filter (fun d => d.email == email) db).head?

/-- `listDocuments` with `Query.equal("accountId", [accountId])`, taking
`documents[0]` when the result is non-empty. -/
def getUserByAccountId (db : Store) (accountId : String) : Option UserDoc :=
  (List.filter (fun d => d.accountId == accountId) db).head?

/-- `updateDocument`: apply a field update to every document carrying the
given document id. -/
def updateDocument (db : Store) (docId : String) (f : UserDoc → UserDoc) : Store :=
  db.map fun d => if d.docId == docId then f d else d

/-! ## WebAuthn flows (register actions and src/unnamed/part_000)

The simplewebauthn verifier functions are external collaborators; the
spec treats them as an opaque cryptographic oracle that receives the
stored challenge, credential material and counter and hands back a
verified boolean plus any new counter or credential data, or throws.
They are modelled as oracle arguments from argument records to a result
or a thrown message (the thrown message is what the surrounding catch
block turns into a request-level error).
-/

/-- Arguments the login flow hands to `verifyAuthenticationResponse`:
expected challenge and the stored credential record.  The public key is
carried in its stored base64url text form; its decoding happens at the
oracle boundary. -/
structure AuthVerifyArgs where
  expectedChallenge : String
  credentialId : String
  credentialPublicKey : String
  counter : Nat
  deriving DecidableEq, Repr

/-- Outcome of `verifyAuthenticationResponse`: a thrown error, or a result
object with `verified` and the optional `authenticationInfo?.newCounter`. -/
inductive AuthVerification where
  | threw (msg : String)
  | result (verified : Bool) (newCounter : Option Nat)
  deriving DecidableEq, Repr

/-- Arguments the registration flow hands to `verifyRegistrationResponse`
that come from the account record: the expected challenge. -/
structure RegVerifyArgs where
  expectedChallenge : String
  deriving DecidableEq, Repr

/-- The value passed to `toBase64Url`: a byte buffer, a string, or
undefined. -/
inductive BinOrStr where
  | bytes (b : List Nat)
  | str (s : String)
  | undef
  deriving DecidableEq, Repr

/-- The credential record inside `registrationInfo`. -/
structure RegCredential where
  id : BinOrStr
  publicKey : BinOrStr
  counter : Option Nat
  deriving DecidableEq, Repr

/-- Outcome of `verifyRegistrationResponse`: a thrown error, or a result
object with `verified` and the optional `registrationInfo?.credential`. -/
inductive RegVerification where
  | threw (msg : String)
  | result (verified : Bool) (credential : Option RegCredential)
  deriving DecidableEq, Repr

/-- `toBase64Url` from the register actions module: empty string for a
falsy input, strings passed through, buffers encoded with the Node
base64url encoding (standard base64 with the url alphabet and padding
stripped, the same transcoding as `bufferToBase64Url`). -/
def toBase64Url : BinOrStr → String
  | .undef => ""
  | .str s => s
  | .bytes b => codesToString (bufferToBase64Url b)

/-- `getWebAuthnLoginOptions`.  The challenge produced by
`generateAuthenticationOptions` is an oracle input; the returned options
object is modelled by its challenge component. -/
def getWebAuthnLoginOptions (challenge : String) (db : Store) (accountId : String) :
    ServerResult String × Store :=
  match getUserByAccountId db accountId with
  | none => (.err "User not found for WebAuthn login", db)
  | some user =>
    if falsyStr user.credentialID || falsyStr user.credentialPublicKey then
      (.err "User does not have a registered WebAuthn credential", db)
    else
      (.ok challenge,
        updateDocument db user.docId fun d =>
          { d with currentAuthChallenge := some challenge })

/-- `verifyWebAuthnLogin`.  The data payload is the `verified` boolean of
the `\x7bverified\x7d` record. -/
def verifyWebAuthnLogin (verifier : AuthVerifyArgs → AuthVerification)
    (db : Store) (accountId : String) : ServerResult Bool × Store :=
  match getUserByAccountId db accountId with
  | none => (.err "User not found for WebAuthn login verification", db)
  | some user =>
    if falsyStr user.currentAuthChallenge then
      (.err "No auth challenge stored for user", db)
    else if falsyStr user.credentialID || falsyStr user.credentialPublicKey then
      (.err "No stored WebAuthn credential for user", db)
    else
      match verifier ⟨user.currentAuthChallenge.getD "", user.credentialID.getD "",
          user.credentialPublicKey.getD "", user.counter.getD 0⟩ with
      | .threw msg =>
          (.err (if msg == "" then "Failed to verify WebAuthn login" else msg), db)
      | .result verified newCounter =>
        if !verified then (.ok false, db)
        else
          let nc := newCounter.getD (user.counter.getD 0)
          (.ok true,
            updateDocument db user.docId fun d =>
              { d with counter := some nc, currentAuthChallenge := none })

/-- `verifyWebAuthnRegistration`. -/
def verifyWebAuthnRegistration (verifier : RegVerifyArgs → RegVerification)
    (db : Store) (accountId : String) : ServerResult Bool × Store :=
  match getUserByAccountId db accountId with
  | none => (.err "User not found for WebAuthn verification", db)
  | some user =>
    if falsyStr user.currentChallenge then
      (.err "No registration challenge found for user", db)
    else
      match verifier ⟨user.currentChallenge.getD ""⟩ with
      | .threw msg =>
          (.err (if msg == "" then "Failed to verify WebAuthn registration" else msg), db)
      | .result verified credential =>
        if !verified then (.err "WebAuthn registration verification failed", db)
        else
          match credential with
          | none => (.err "No credential info returned from verification", db)
          | some reg =>
            let credentialID := toBase64Url reg.id
            let credentialPublicKey := toBase64Url reg.publicKey
            let counter := reg.counter.getD 0
            (.ok true,
              updateDocument db user.docId fun d =>
                { d with
                  credentialID := some credentialID,
                  credentialPublicKey := some credentialPublicKey,
                  counter := some counter,
                  currentChallenge := none,
                  hasPasskey := true,
                  authMethod := "passkey",
                  passKeyCount := some (user.passKeyCount.getD 0 + 1) })

/-! ## OTP sign-up flow (src/lib/actions/auth.actions.ts) -/

/-- Default avatar URL from the constants module (outside src); its
concrete value is irrelevant to every claim. -/
def avatarPlaceholderUrl : String := "assets/images/avatar.png"

/-- `sendEmailOTP`.  `account.createEmailToken` is the external token
issuer; per the spec it returns an account-scoped token holder id for the
email, modelled as a function from email to the issued user id or a
thrown message. -/
def sendEmailOTP (issuer : String → Except String String) (email : String) :
    ServerResult String :=
  match issuer email with
  | .ok userId => .ok userId
  | .error msg => .err (if msg == "" then "Failed to send email OTP" else msg)

/-- `createAccount`.  `newDocId` models the `ID.unique()` fed to
`createDocument`. -/
def createAccount (issuer : String → Except String String) (newDocId : String)
    (db : Store) (fullName email : String) : ServerResult String × Store :=
  let existingUser := getUserByEmail db email
  match sendEmailOTP issuer email with
  | .err e => (.err (if e == "" then "Failed to send OTP" else e), db)
  | .ok accountId =>
    match existingUser with
    | some _ => (.ok accountId, db)
    | none =>
      (.ok accountId,
        db ++ [{ docId := newDocId
                 accountId := accountId
                 userId := accountId
                 email := email
                 fullName := fullName
                 avatar := avatarPlaceholderUrl
                 authMethod := "otp"
                 hasPasskey := false
                 passKeyCount := some 0
                 credentialID := none
                 credentialPublicKey := none
                 counter := none
                 currentChallenge := none
                 currentAuthChallenge := none }])

/-! ## Concrete sample data used by witnesses and counterexamples -/

/-- A freshly signed-up account document. -/
def sampleUser : UserDoc :=
  { docId := "d1", accountId := "a1", userId := "a1", email := "a@x.com",
    fullName := "A", avatar := avatarPlaceholderUrl, authMethod := "otp",
    hasPasskey := false, passKeyCount := some 0, credentialID := none,
    credentialPublicKey := none, counter := none, currentChallenge := none,
    currentAuthChallenge := none }

/-- An account document with an enrolled credential, a pending auth
challenge and a stored counter of 5. -/
def sampleCredUser : UserDoc :=
  { sampleUser with
    hasPasskey := true
    authMethod := "passkey"
    passKeyCount := some 1
    counter := some 5
    currentAuthChallenge := some "authch"
    credentialID := some "cid"
    credentialPublicKey := some "cpk" }

/-! ## Store lemmas -/

/-- Updating the found document by its id leaves it the first match for
its account id, with the update applied, provided the update does not
touch `accountId`. -/
theorem getUserByAccountId_update
    (f : UserDoc → UserDoc) (hacc : ∀ d, (f d).accountId = d.accountId) :
    ∀ (db : Store) (aid : String) (u : UserDoc),
      getUserByAccountId db aid = some u →
      getUserByAccountId (updateDocument db u.docId f) aid = some (f u) := by
  intro db
  induction db with
  | nil => intro aid u hu; simp [getUserByAccountId] at hu
  | cons d rest ih =>
    intro aid u hu
    cases hd : (d.accountId == aid) with
    | true =>
      have hdu : d = u := by
        unfold getUserByAccountId at hu
        rw [List.filter_cons, if_pos hd] at hu
        simpa using hu
      subst hdu
      unfold getUserByAccountId updateDocument
      rw [List.map_cons]
      have e1 : (if (d.docId == d.docId) = true then f d else d) = f d :=
        if_pos (beq_self_eq_true _)
      rw [e1, List.filter_cons, if_pos (show ((f d).accountId == aid) = true by
        rw [hacc]; exact hd)]
      rfl
    | false =>
      have hu' : getUserByAccountId rest aid = some u := by
        unfold getUserByAccountId at hu ⊢
        rw [List.filter_cons,
          if_neg (by simp only [hd]; exact Bool.false_ne_true)] at hu
        exact hu
      have hfd : ((if (d.docId == u.docId) = true then f d else d).accountId == aid)
          = false := by
        by_cases hdoc : (d.docId == u.docId) = true
        · rw [if_pos hdoc, hacc]; exact hd
        · rw [if_neg hdoc]; exact hd
      have hrest := ih aid u hu'
      unfold getUserByAccountId updateDocument
      rw [List.map_cons, List.filter_cons,
        if_neg (by simp only [hfd]; exact Bool.false_ne_true)]
      exact hrest

/-- Every result of `verifyWebAuthnLogin` is a verified success or leaves
the store untouched. -/
theorem verifyWebAuthnLogin_cases
    (verifier : AuthVerifyArgs → AuthVerification) (db : Store) (accountId : String) :
    (verifyWebAuthnLogin verifier db accountId).1 = .ok true ∨
    (verifyWebAuthnLogin verifier db accountId).2 = db := by
  unfold verifyWebAuthnLogin
  cases hu : getUserByAccountId db accountId with
  | none => right; rfl
  | some u =>
    by_cases h1 : falsyStr u.currentAuthChallenge = true
    · simp [h1]
    · simp only [Bool.not_eq_true] at h1
      by_cases h2 : (falsyStr u.credentialID || falsyStr u.credentialPublicKey) = true
      · simp [h1, h2]
      · simp only [Bool.not_eq_true] at h2
        cases hv : verifier ⟨u.currentAuthChallenge.getD "", u.credentialID.getD "",
            u.credentialPublicKey.getD "", u.counter.getD 0⟩ with
        | threw msg => simp [h1, h2, hv]
        | result v nc => cases v <;> simp [h1, h2, hv]

/-- Every result of `verifyWebAuthnRegistration` is a verified success or
leaves the store untouched. -/
theorem verifyWebAuthnRegistration_cases
    (verifier : RegVerifyArgs → RegVerification) (db : Store) (accountId : String) :
    (verifyWebAuthnRegistration verifier db accountId).1 = .ok true ∨
    (verifyWebAuthnRegistration verifier db accountId).2 = db := by
  unfold verifyWebAuthnRegistration
  cases hu : getUserByAccountId db accountId with
  | none => right; rfl
  | some u =>
    by_cases h1 : falsyStr u.currentChallenge = true
    · simp [h1]
    · simp only [Bool.not_eq_true] at h1
      cases hv : verifier ⟨u.currentChallenge.getD ""⟩ with
      | threw msg => simp [h1, hv]
      | result v cred =>
        cases v with
        | false => simp [h1, hv]
        | true => cases cred <;> simp [h1, hv]

/-- A verified-success registration leaves the account it acted on with a
cleared `currentChallenge`. -/
theorem verifyWebAuthnRegistration_ok_clears
    (verifier : RegVerifyArgs → RegVerification) (db : Store) (accountId : String)
    (h : (verifyWebAuthnRegistration verifier db accountId).1 = .ok true) :
    ∃ u, getUserByAccountId (verifyWebAuthnRegistration verifier db accountId).2 accountId
        = some u ∧ u.currentChallenge = none := by
  unfold verifyWebAuthnRegistration at h ⊢
  cases hu : getUserByAccountId db accountId with
  | none => simp [hu] at h
  | some u =>
    by_cases h1 : falsyStr u.currentChallenge = true
    · simp [hu, h1] at h
    · simp only [Bool.not_eq_true] at h1
      cases hv : verifier ⟨u.currentChallenge.getD ""⟩ with
      | threw msg => simp [hu, h1, hv] at h
      | result v cred =>
        cases v with
        | false => simp [hu, h1, hv] at h
        | true =>
          cases cred with
          | none => simp [hu, h1, hv] at h
          | some reg =>
            simp only [hu, h1, hv, Bool.not_true, Bool.false_eq_true, reduceIte]
            exact ⟨_, getUserByAccountId_update
              (fun d => { d with
                credentialID := some (toBase64Url reg.id)
                credentialPublicKey := some (toBase64Url reg.publicKey)
                counter := some (reg.counter.getD 0)
                currentChallenge := none
                hasPasskey := true
                authMethod := "passkey"
                passKeyCount := some (u.passKeyCount.getD 0 + 1) })
              (fun d => rfl) db accountId u hu, rfl⟩

/-- A verified-success login leaves the account it acted on with a
cleared `currentAuthChallenge`. -/
theorem verifyWebAuthnLogin_ok_clears
    (verifier : AuthVerifyArgs → AuthVerification) (db : Store) (accountId : String)
    (h : (verifyWebAuthnLogin verifier db accountId).1 = .ok true) :
    ∃ u, getUserByAccountId (verifyWebAuthnLogin verifier db accountId).2 accountId
        = some u ∧ u.currentAuthChallenge = none := by
  unfold verifyWebAuthnLogin at h ⊢
  cases hu : getUserByAccountId db accountId with
  | none => simp [hu] at h
  | some u =>
    by_cases h1 : falsyStr u.currentAuthChallenge = true
    · simp [hu, h1] at h
    · simp only [Bool.not_eq_true] at h1
      by_cases h2 : (falsyStr u.credentialID || falsyStr u.credentialPublicKey) = true
      · simp [hu, h1, h2] at h
      · simp only [Bool.not_eq_true] at h2
        cases hv : verifier ⟨u.currentAuthChallenge.getD "", u.credentialID.getD "",
            u.credentialPublicKey.getD "", u.counter.getD 0⟩ with
        | threw msg => simp [hu, h1, h2, hv] at h
        | result v nc =>
          cases v with
          | false => simp [hu, h1, h2, hv] at h
          | true =>
            simp only [hu, h1, h2, hv, Bool.not_true, Bool.false_eq_true, reduceIte]
            exact ⟨_, getUserByAccountId_update
              (fun d => { d with
                counter := some (nc.getD (u.counter.getD 0))
                currentAuthChallenge := none })
              (fun d => rfl) db accountId u hu, rfl⟩

/-! ## Encoding lemmas -/

/-- `b64Val` inverts `b64Char` on sextet values. -/
theorem b64Val_b64Char (n : Nat) (h : n < 64) : b64Val (b64Char n) = n := by
  unfold b64Char b64Val
  split_ifs <;> omega

/-- The base64 alphabet never produces the padding character. -/
theorem b64Char_ne_61 (n : Nat) : b64Char n ≠ 61 := by
  unfold b64Char
  split_ifs <;> omega

/-- Url-translating an alphabet character never yields the padding
character. -/
theorem stdToUrl_b64Char_ne_61 (n : Nat) : stdToUrl (b64Char n) ≠ 61 := by
  unfold b64Char stdToUrl
  split_ifs <;> omega

/-- The decoder replace step inverts the encoder replace step on alphabet
characters. -/
theorem urlToStd_stdToUrl_b64Char (n : Nat) (h : n < 64) :
    urlToStd (stdToUrl (b64Char n)) = b64Char n := by
  unfold b64Char stdToUrl urlToStd
  split_ifs <;> omega

/-- Url-translated alphabet characters pass the base64url character
check. -/
theorem isB64UrlChar_stdToUrl_b64Char (n : Nat) (h : n < 64) :
    isB64UrlChar (stdToUrl (b64Char n)) = true := by
  unfold b64Char stdToUrl isB64UrlChar
  rw [decide_eq_true_eq]
  split_ifs <;> omega

/-- `btoa` is the unpadded encoding followed by the padding run. -/
theorem btoa_eq_core_pad :
    ∀ b : List Nat, btoa b = b64core b ++ List.replicate (padLen b.length) 61
  | [] => by simp [btoa, b64core, padLen]
  | [b0] => by simp [btoa, b64core, padLen]
  | [b0, b1] => by simp [btoa, b64core, padLen]
  | b0 :: b1 :: b2 :: rest => by
      have ih := btoa_eq_core_pad rest
      have hp : padLen (rest.length + 1 + 1 + 1) = padLen rest.length := by
        unfold padLen; split_ifs <;> omega
      simp [btoa, b64core, ih, hp]

/-- Every character of the unpadded encoding is an alphabet character. -/
theorem mem_b64core :
    ∀ b : List Nat, (∀ x ∈ b, x < 256) → ∀ c ∈ b64core b, ∃ n, n < 64 ∧ c = b64Char n
  | [], _ => by simp [b64core]
  | [b0], h => by
      have hb0 : b0 < 256 := h b0 (by simp)
      intro c hc
      simp only [b64core, List.mem_cons, List.not_mem_nil, or_false] at hc
      rcases hc with h1 | h2
      · exact ⟨b0 / 4, by omega, h1⟩
      · exact ⟨b0 % 4 * 16, by omega, h2⟩
  | [b0, b1], h => by
      have hb0 : b0 < 256 := h b0 (by simp)
      have hb1 : b1 < 256 := h b1 (by simp)
      intro c hc
      simp only [b64core, List.mem_cons, List.not_mem_nil, or_false] at hc
      rcases hc with h1 | h2 | h3
      · exact ⟨b0 / 4, by omega, h1⟩
      · exact ⟨b0 % 4 * 16 + b1 / 16, by omega, h2⟩
      · exact ⟨b1 % 16 * 4, by omega, h3⟩
  | b0 :: b1 :: b2 :: rest, h => by
      have hb0 : b0 < 256 := h b0 (by simp)
      have hb1 : b1 < 256 := h b1 (by simp)
      have hb2 : b2 < 256 := h b2 (by simp)
      have hrest : ∀ x ∈ rest, x < 256 := fun x hx => h x (by simp [hx])
      intro c hc
      simp only [b64core, List.mem_cons] at hc
      rcases hc with h1 | h2 | h3 | h4 | h5
      · exact ⟨b0 / 4, by omega, h1⟩
      · exact ⟨b0 % 4 * 16 + b1 / 16, by omega, h2⟩
      · exact ⟨b1 % 16 * 4 + b2 / 64, by omega, h3⟩
      · exact ⟨b2 % 64, by omega, h4⟩
      · exact mem_b64core rest hrest c h5

/-- The unpadded encoding of a non-empty input is non-empty. -/
theorem b64core_ne_nil (b : List Nat) (hne : b ≠ []) : b64core b ≠ [] := by
  match b with
  | [] => exact absurd rfl hne
  | [b0] => simp [b64core]
  | [b0, b1] => simp [b64core]
  | b0 :: b1 :: b2 :: rest => simp [b64core]

/-- Length of the unpadded encoding modulo 4, as a function of the input
length modulo 3. -/
theorem b64core_length_mod4 :
    ∀ b : List Nat, (b64core b).length % 4
      = if b.length % 3 = 0 then 0 else b.length % 3 + 1
  | [] => by simp [b64core]
  | [b0] => by simp [b64core]
  | [b0, b1] => by simp [b64core]
  | b0 :: b1 :: b2 :: rest => by
      have ih := b64core_length_mod4 rest
      simp only [b64core, List.length_cons] at ih ⊢
      split_ifs at ih ⊢ <;> omega

/-- `atob` inverts `btoa` on byte inputs. -/
theorem atob_btoa :
    ∀ b : List Nat, (∀ x ∈ b, x < 256) → atob (btoa b) = b
  | [], _ => rfl
  | [b0], h => by
      have hb0 : b0 < 256 := h b0 (by simp)
      simp only [btoa, atob, reduceIte]
      rw [b64Val_b64Char _ (by omega), b64Val_b64Char _ (by omega)]
      simp only [List.cons.injEq, and_true]
      omega
  | [b0, b1], h => by
      have hb0 : b0 < 256 := h b0 (by simp)
      have hb1 : b1 < 256 := h b1 (by simp)
      simp only [btoa, atob]
      rw [if_neg (b64Char_ne_61 _)]
      simp only [if_true]
      rw [b64Val_b64Char _ (by omega), b64Val_b64Char _ (by omega),
        b64Val_b64Char _ (by omega)]
      simp only [List.cons.injEq, and_true]
      omega
  | b0 :: b1 :: b2 :: rest, h => by
      have hb0 : b0 < 256 := h b0 (by simp)
      have hb1 : b1 < 256 := h b1 (by simp)
      have hb2 : b2 < 256 := h b2 (by simp)
      have hrest : ∀ x ∈ rest, x < 256 := fun x hx => h x (by simp [hx])
      have ih := atob_btoa rest hrest
      simp only [btoa, atob]
      rw [if_neg (b64Char_ne_61 _), if_neg (b64Char_ne_61 _)]
      rw [b64Val_b64Char _ (by omega), b64Val_b64Char _ (by omega),
        b64Val_b64Char _ (by omega), b64Val_b64Char _ (by omega)]
      simp only [ih, List.cons.injEq]
      refine ⟨by omega, by omega, by omega, trivial⟩

/-- Dropping a leading run of `=` from a list that has none is the
identity. -/
theorem dropWhile61_of_not_mem (l : List Nat) (hl : ∀ c ∈ l, c ≠ 61) :
    l.dropWhile (fun c => c == 61) = l := by
  cases l with
  | nil => rfl
  | cons a as =>
    rw [List.dropWhile_cons, if_neg]
    simp only [beq_iff_eq]
    exact hl a (List.mem_cons_self a as)

/-- A leading replicate of `=` is consumed by the drop. -/
theorem dropWhile61_replicate_append (k : Nat) (l : List Nat) :
    (List.replicate k 61 ++ l).dropWhile (fun c => c == 61)
      = l.dropWhile (fun c => c == 61) := by
  induction k with
  | zero => simp
  | succ n ih => simp [List.replicate_succ, List.dropWhile_cons, ih]

/-- Stripping the trailing padding run recovers the unpadded part when it
holds no `=` itself. -/
theorem dropTrailingEq_append_replicate (xs : List Nat) (k : Nat)
    (hxs : ∀ c ∈ xs, c ≠ 61) :
    dropTrailingEq (xs ++ List.replicate k 61) = xs := by
  unfold dropTrailingEq
  rw [List.reverse_append, List.reverse_replicate, dropWhile61_replicate_append,
    dropWhile61_of_not_mem xs.reverse (fun c hc => hxs c (List.mem_reverse.mp hc)),
    List.reverse_reverse]

/-- A list without `=` has an empty leading `=` run. -/
theorem takeWhile61_nil (s : List Nat) (h61 : ∀ c ∈ s, c ≠ 61) :
    s.takeWhile (fun c => c == 61) = [] := by
  cases s with
  | nil => rfl
  | cons a as =>
    rw [List.takeWhile_cons, if_neg]
    simp only [beq_iff_eq]
    exact h61 a (List.mem_cons_self a as)

/-- A non-empty list of base64url characters free of `=` passes the
regex check. -/
theorem isBase64Url_of_chars (s : List Nat) (hne : s ≠ [])
    (hchars : ∀ c ∈ s, isB64UrlChar c = true) (h61 : ∀ c ∈ s, c ≠ 61) :
    isBase64Url s = true := by
  unfold isBase64Url
  rw [takeWhile61_nil s.reverse (fun c hc => h61 c (List.mem_reverse.mp hc))]
  simp [List.take_length, List.all_eq_true, hne]
  exact hchars

/-- The encoder output is the url-translated unpadded encoding. -/
theorem bufferToBase64Url_eq_core (b : List Nat) (hlt : ∀ x ∈ b, x < 256) :
    bufferToBase64Url b = (b64core b).map stdToUrl := by
  unfold bufferToBase64Url
  rw [btoa_eq_core_pad, List.map_append, List.map_replicate,
    show stdToUrl 61 = 61 from rfl]
  exact dropTrailingEq_append_replicate _ _ (fun c hc => by
    obtain ⟨a, ha, rfl⟩ := List.mem_map.mp hc
    obtain ⟨n, hn, rfl⟩ := mem_b64core b hlt a ha
    exact stdToUrl_b64Char_ne_61 n)

/-! ## Claim theorems -/

/-- C1 counterexample: the claim that a reported counter not greater than
the stored one is rejected is false on the code.  With a stored counter
of 5 and a verifier result reporting counter 3 as verified,
`verifyWebAuthnLogin` succeeds and persists 3, so the stored counter
decreases; the code itself performs no monotonicity comparison. -/
theorem verifyWebAuthnLogin_accepts_lower_counter :
    sampleCredUser.counter = some 5 ∧
    (verifyWebAuthnLogin (fun _ => .result true (some 3)) [sampleCredUser] "a1").1
      = .ok true ∧
    ((getUserByAccountId
        (verifyWebAuthnLogin (fun _ => .result true (some 3)) [sampleCredUser] "a1").2
        "a1").bind UserDoc.counter) = some 3 ∧
    3 < 5 := by decide

/-- C1 (amended): `verifyWebAuthnLogin` delegates counter checking to the
external verifier and persists exactly the reported new counter on a
verified success (falling back to the stored value when none is
reported); hence the stored counter never decreases provided the
verifier only verifies responses whose reported counter is at least the
stored one. -/
theorem verifyWebAuthnLogin_persists_reported_counter
    (verifier : AuthVerifyArgs → AuthVerification) (db : Store) (accountId : String)
    (u : UserDoc) (nc : Option Nat)
    (hu : getUserByAccountId db accountId = some u)
    (hch : falsyStr u.currentAuthChallenge = false)
    (hcred : (falsyStr u.credentialID || falsyStr u.credentialPublicKey) = false)
    (hv : verifier ⟨u.currentAuthChallenge.getD "", u.credentialID.getD "",
        u.credentialPublicKey.getD "", u.counter.getD 0⟩ = .result true nc) :
    (verifyWebAuthnLogin verifier db accountId).1 = .ok true ∧
    getUserByAccountId (verifyWebAuthnLogin verifier db accountId).2 accountId =
      some { u with counter := some (nc.getD (u.counter.getD 0)),
                    currentAuthChallenge := none } ∧
    ((∀ n, nc = some n → u.counter.getD 0 ≤ n) →
      u.counter.getD 0 ≤ nc.getD (u.counter.getD 0)) := by
  refine ⟨?_, ?_, ?_⟩
  · simp [verifyWebAuthnLogin, hu, hch, hcred, hv]
  · simp only [verifyWebAuthnLogin, hu, hch, hcred, hv, Bool.not_true,
      Bool.false_eq_true, reduceIte]
    exact getUserByAccountId_update
      (fun d => { d with
        counter := some (nc.getD (u.counter.getD 0))
        currentAuthChallenge := none })
      (fun d => rfl) db accountId u hu
  · intro hmono
    cases nc with
    | none => simp
    | some n => simpa using hmono n rfl

/-- Witness for the amended C1 theorem at a concrete store. -/
theorem verifyWebAuthnLogin_persists_reported_counter_witness :
    (verifyWebAuthnLogin (fun _ => .result true (some 9)) [sampleCredUser] "a1").1
      = .ok true ∧
    getUserByAccountId
        (verifyWebAuthnLogin (fun _ => .result true (some 9)) [sampleCredUser] "a1").2
        "a1"
      = some { sampleCredUser with
          counter := some ((some 9 : Option Nat).getD (sampleCredUser.counter.getD 0)),
          currentAuthChallenge := none } ∧
    ((∀ n, (some 9 : Option Nat) = some n → sampleCredUser.counter.getD 0 ≤ n) →
      sampleCredUser.counter.getD 0
        ≤ (some 9 : Option Nat).getD (sampleCredUser.counter.getD 0)) :=
  verifyWebAuthnLogin_persists_reported_counter
    (fun _ => .result true (some 9)) [sampleCredUser] "a1" sampleCredUser (some 9)
    (by decide) (by decide) (by decide) rfl

/-- C2 counterexample: the claim that a consuming verification clears the
stored challenge on the failure path as well is false on the code.  A
registration verification that fails leaves `currentChallenge` exactly
as it was. -/
theorem verifyWebAuthnRegistration_failure_keeps_challenge :
    verifyWebAuthnRegistration (fun _ => .result false none)
        [{ sampleUser with currentChallenge := some "regch" }] "a1"
      = (.err "WebAuthn registration verification failed",
          [{ sampleUser with currentChallenge := some "regch" }]) ∧
    ({ sampleUser with currentChallenge := some "regch" } : UserDoc).currentChallenge
      = some "regch" := by decide

/-- C2 (amended): a consuming verification clears the stored challenge on
the success path only; on every non-success path the store, challenge
field included, is left completely unchanged, so a stale challenge can
be retried. -/
theorem challenge_cleared_only_on_success
    (vR : RegVerifyArgs → RegVerification) (vL : AuthVerifyArgs → AuthVerification)
    (db : Store) (accountId : String) :
    ((verifyWebAuthnRegistration vR db accountId).1 ≠ .ok true →
      (verifyWebAuthnRegistration vR db accountId).2 = db) ∧
    ((verifyWebAuthnRegistration vR db accountId).1 = .ok true →
      ∃ u, getUserByAccountId (verifyWebAuthnRegistration vR db accountId).2 accountId
          = some u ∧ u.currentChallenge = none) ∧
    ((verifyWebAuthnLogin vL db accountId).1 ≠ .ok true →
      (verifyWebAuthnLogin vL db accountId).2 = db) ∧
    ((verifyWebAuthnLogin vL db accountId).1 = .ok true →
      ∃ u, getUserByAccountId (verifyWebAuthnLogin vL db accountId).2 accountId
          = some u ∧ u.currentAuthChallenge = none) :=
  ⟨fun h => (verifyWebAuthnRegistration_cases vR db accountId).resolve_left h,
   verifyWebAuthnRegistration_ok_clears vR db accountId,
   fun h => (verifyWebAuthnLogin_cases vL db accountId).resolve_left h,
   verifyWebAuthnLogin_ok_clears vL db accountId⟩

/-- Witness for the amended C2 theorem: a successful registration clears
the challenge at a concrete store. -/
theorem challenge_cleared_only_on_success_witness :
    ∃ u, getUserByAccountId
        (verifyWebAuthnRegistration
          (fun _ => .result true (some ⟨.str "cid", .str "cpk", some 0⟩))
          [{ sampleUser with currentChallenge := some "regch" }] "a1").2 "a1"
      = some u ∧ u.currentChallenge = none :=
  (challenge_cleared_only_on_success
    (fun _ => .result true (some ⟨.str "cid", .str "cpk", some 0⟩))
    (fun _ => .result false none)
    [{ sampleUser with currentChallenge := some "regch" }] "a1").2.1 (by decide)

/-- C3: on a verified registration with credential info, the account is
updated with exactly the text-encoded credential id and public key, the
reported counter, a cleared challenge, `hasPasskey` true, `authMethod`
passkey and `passKeyCount` incremented by exactly one; all other fields
are untouched. -/
theorem verifyWebAuthnRegistration_success_update
    (verifier : RegVerifyArgs → RegVerification) (db : Store) (accountId : String)
    (u : UserDoc) (reg : RegCredential)
    (hu : getUserByAccountId db accountId = some u)
    (hch : falsyStr u.currentChallenge = false)
    (hv : verifier ⟨u.currentChallenge.getD ""⟩ = .result true (some reg)) :
    (verifyWebAuthnRegistration verifier db accountId).1 = .ok true ∧
    getUserByAccountId (verifyWebAuthnRegistration verifier db accountId).2 accountId =
      some { u with
        credentialID := some (toBase64Url reg.id),
        credentialPublicKey := some (toBase64Url reg.publicKey),
        counter := some (reg.counter.getD 0),
        currentChallenge := none,
        hasPasskey := true,
        authMethod := "passkey",
        passKeyCount := some (u.passKeyCount.getD 0 + 1) } := by
  constructor
  · simp [verifyWebAuthnRegistration, hu, hch, hv]
  · simp only [verifyWebAuthnRegistration, hu, hch, hv, Bool.not_true,
      Bool.false_eq_true, reduceIte]
    exact getUserByAccountId_update
      (fun d => { d with
        credentialID := some (toBase64Url reg.id)
        credentialPublicKey := some (toBase64Url reg.publicKey)
        counter := some (reg.counter.getD 0)
        currentChallenge := none
        hasPasskey := true
        authMethod := "passkey"
        passKeyCount := some (u.passKeyCount.getD 0 + 1) })
      (fun d => rfl) db accountId u hu

/-- Witness for C3 at a concrete store. -/
theorem verifyWebAuthnRegistration_success_update_witness :
    (verifyWebAuthnRegistration
        (fun _ => .result true (some ⟨.bytes [1, 2], .bytes [3, 4], some 7⟩))
        [{ sampleUser with currentChallenge := some "regch" }] "a1").1 = .ok true ∧
    getUserByAccountId
        (verifyWebAuthnRegistration
          (fun _ => .result true (some ⟨.bytes [1, 2], .bytes [3, 4], some 7⟩))
          [{ sampleUser with currentChallenge := some "regch" }] "a1").2 "a1"
      = some { { sampleUser with currentChallenge := some "regch" } with
          credentialID := some (toBase64Url (.bytes [1, 2])),
          credentialPublicKey := some (toBase64Url (.bytes [3, 4])),
          counter := some ((some 7 : Option Nat).getD 0),
          currentChallenge := none,
          hasPasskey := true,
          authMethod := "passkey",
          passKeyCount := some
            (({ sampleUser with currentChallenge := some "regch" } :
              UserDoc).passKeyCount.getD 0 + 1) } :=
  verifyWebAuthnRegistration_success_update
    (fun _ => .result true (some ⟨.bytes [1, 2], .bytes [3, 4], some 7⟩))
    [{ sampleUser with currentChallenge := some "regch" }] "a1"
    { sampleUser with currentChallenge := some "regch" }
    ⟨.bytes [1, 2], .bytes [3, 4], some 7⟩
    (by decide) (by decide) rfl

/-- C4: a verification call that finds no stored challenge fails closed
with the no-challenge error, independently of the verifier, and leaves
the store unchanged; in particular a second registration verification
right after a successful one fails this way, since the first call
cleared the challenge. -/
theorem verify_without_challenge_fails_closed
    (vR : RegVerifyArgs → RegVerification) (vL : AuthVerifyArgs → AuthVerification)
    (db : Store) (accountId : String) (u : UserDoc)
    (hu : getUserByAccountId db accountId = some u) :
    (falsyStr u.currentChallenge = true →
      verifyWebAuthnRegistration vR db accountId
        = (.err "No registration challenge found for user", db)) ∧
    (falsyStr u.currentAuthChallenge = true →
      verifyWebAuthnLogin vL db accountId
        = (.err "No auth challenge stored for user", db)) ∧
    ((verifyWebAuthnRegistration vR db accountId).1 = .ok true →
      ∀ vR2, verifyWebAuthnRegistration vR2
          (verifyWebAuthnRegistration vR db accountId).2 accountId
        = (.err "No registration challenge found for user",
            (verifyWebAuthnRegistration vR db accountId).2)) := by
  refine ⟨?_, ?_, ?_⟩
  · intro h; simp [verifyWebAuthnRegistration, hu, h]
  · intro h; simp [verifyWebAuthnLogin, hu, h]
  · intro h vR2
    obtain ⟨u2, hu2, hchal⟩ := verifyWebAuthnRegistration_ok_clears vR db accountId h
    generalize hdb : (verifyWebAuthnRegistration vR db accountId).2 = db2 at hu2 ⊢
    simp [verifyWebAuthnRegistration, hu2, hchal, falsyStr]

/-- Witness for C4 at a concrete store with no stored challenges. -/
theorem verify_without_challenge_fails_closed_witness :
    verifyWebAuthnRegistration (fun _ => .result true none) [sampleUser] "a1"
      = (.err "No registration challenge found for user", [sampleUser]) ∧
    verifyWebAuthnLogin (fun _ => .result true none) [sampleUser] "a1"
      = (.err "No auth challenge stored for user", [sampleUser]) :=
  ⟨(verify_without_challenge_fails_closed (fun _ => .result true none)
      (fun _ => .result true none) [sampleUser] "a1" sampleUser
      (by decide)).1 (by decide),
   (verify_without_challenge_fails_closed (fun _ => .result true none)
      (fun _ => .result true none) [sampleUser] "a1" sampleUser
      (by decide)).2.1 (by decide)⟩

/-- C5: `getWebAuthnLoginOptions` fails closed, with distinct messages,
both when the account is missing and when the account holds no enrolled
credential material, in each case leaving the store untouched and
issuing no challenge. -/
theorem getWebAuthnLoginOptions_fails_closed
    (challenge : String) (db : Store) (accountId : String) :
    (getUserByAccountId db accountId = none →
      getWebAuthnLoginOptions challenge db accountId
        = (.err "User not found for WebAuthn login", db)) ∧
    (∀ u, getUserByAccountId db accountId = some u →
      (falsyStr u.credentialID || falsyStr u.credentialPublicKey) = true →
      getWebAuthnLoginOptions challenge db accountId
        = (.err "User does not have a registered WebAuthn credential", db)) ∧
    "User not found for WebAuthn login"
      ≠ "User does not have a registered WebAuthn credential" := by
  refine ⟨?_, ?_, by decide⟩
  · intro h; simp [getWebAuthnLoginOptions, h]
  · intro u hu hcred; simp [getWebAuthnLoginOptions, hu, hcred]

/-- Witness for C5: a user without credentials and a missing user. -/
theorem getWebAuthnLoginOptions_fails_closed_witness :
    getWebAuthnLoginOptions "ch" [sampleUser] "a1"
      = (.err "User does not have a registered WebAuthn credential", [sampleUser]) ∧
    getWebAuthnLoginOptions "ch" [sampleUser] "zz"
      = (.err "User not found for WebAuthn login", [sampleUser]) :=
  ⟨(getWebAuthnLoginOptions_fails_closed "ch" [sampleUser] "a1").2.1
      sampleUser (by decide) (by decide),
   (getWebAuthnLoginOptions_fails_closed "ch" [sampleUser] "zz").1 (by decide)⟩

/-- C6: when challenge and credential material are present but the
verifier reports the assertion as not verified, `verifyWebAuthnLogin`
returns a success-shaped result carrying verified false, which is a
different shape from every request-level error result. -/
theorem verifyWebAuthnLogin_cryptofail_success_shaped
    (verifier : AuthVerifyArgs → AuthVerification) (db : Store) (accountId : String)
    (u : UserDoc) (nc : Option Nat)
    (hu : getUserByAccountId db accountId = some u)
    (hch : falsyStr u.currentAuthChallenge = false)
    (hcred : (falsyStr u.credentialID || falsyStr u.credentialPublicKey) = false)
    (hv : verifier ⟨u.currentAuthChallenge.getD "", u.credentialID.getD "",
        u.credentialPublicKey.getD "", u.counter.getD 0⟩ = .result false nc) :
    verifyWebAuthnLogin verifier db accountId = (.ok false, db) ∧
    ∀ e, (ServerResult.ok false : ServerResult Bool) ≠ .err e := by
  constructor
  · simp [verifyWebAuthnLogin, hu, hch, hcred, hv]
  · intro e h; cases h

/-- Witness for C6 at a concrete store. -/
theorem verifyWebAuthnLogin_cryptofail_success_shaped_witness :
    verifyWebAuthnLogin (fun _ => .result false none) [sampleCredUser] "a1"
      = (.ok false, [sampleCredUser]) ∧
    ∀ e, (ServerResult.ok false : ServerResult Bool) ≠ .err e :=
  verifyWebAuthnLogin_cryptofail_success_shaped
    (fun _ => .result false none) [sampleCredUser] "a1" sampleCredUser none
    (by decide) (by decide) (by decide) rfl

/-- C7: any `verifyWebAuthnLogin` call whose result is not a verified
success leaves the whole store, and in particular the stored counter,
unchanged; the counter is persisted only on verified success. -/
theorem verifyWebAuthnLogin_store_unchanged_unless_verified
    (verifier : AuthVerifyArgs → AuthVerification) (db : Store) (accountId : String)
    (h : (verifyWebAuthnLogin verifier db accountId).1 ≠ .ok true) :
    (verifyWebAuthnLogin verifier db accountId).2 = db :=
  (verifyWebAuthnLogin_cases verifier db accountId).resolve_left h

/-- Witness for C7: a failed assertion at a concrete store. -/
theorem verifyWebAuthnLogin_store_unchanged_unless_verified_witness :
    (verifyWebAuthnLogin (fun _ => .result false (some 9)) [sampleCredUser] "a1").1
      ≠ .ok true ∧
    (verifyWebAuthnLogin (fun _ => .result false (some 9)) [sampleCredUser] "a1").2
      = [sampleCredUser] :=
  ⟨by decide,
   verifyWebAuthnLogin_store_unchanged_unless_verified
     (fun _ => .result false (some 9)) [sampleCredUser] "a1" (by decide)⟩

/-- C8: when the token issuer succeeds for an email with no existing
account document, calling `createAccount` twice with that email creates
exactly one document, and both calls return the same account id. -/
theorem createAccount_idempotent
    (issuer : String → Except String String) (id1 id2 : String) (db : Store)
    (fullName email accountId : String)
    (hissuer : issuer email = .ok accountId)
    (hnone : getUserByEmail db email = none) :
    (createAccount issuer id1 db fullName email).1 = .ok accountId ∧
    (createAccount issuer id2 (createAccount issuer id1 db fullName email).2
        fullName email).1 = .ok accountId ∧
    (createAccount issuer id2 (createAccount issuer id1 db fullName email).2
        fullName email).2 = (createAccount issuer id1 db fullName email).2 ∧
    (createAccount issuer id1 db fullName email).2.length = db.length + 1 ∧
    ((createAccount issuer id2 (createAccount issuer id1 db fullName email).2
        fullName email).2.filter fun d => d.email == email).length = 1 := by
  have hfilter : List.filter (fun d => d.email == email) db = [] := by
    unfold getUserByEmail at hnone
    exact List.head?_eq_none_iff.mp hnone
  refine ⟨?_, ?_, ?_, ?_, ?_⟩ <;>
    simp [createAccount, sendEmailOTP, hissuer, hnone, getUserByEmail,
      List.filter_append, hfilter]

/-- Witness for C8 starting from the empty store. -/
theorem createAccount_idempotent_witness :
    (createAccount (fun _ => .ok "acc1") "d1" [] "A" "a@x.com").1 = .ok "acc1" ∧
    (createAccount (fun _ => .ok "acc1") "d2"
        (createAccount (fun _ => .ok "acc1") "d1" [] "A" "a@x.com").2
        "A" "a@x.com").1 = .ok "acc1" ∧
    (createAccount (fun _ => .ok "acc1") "d2"
        (createAccount (fun _ => .ok "acc1") "d1" [] "A" "a@x.com").2
        "A" "a@x.com").2
      = (createAccount (fun _ => .ok "acc1") "d1" [] "A" "a@x.com").2 ∧
    (createAccount (fun _ => .ok "acc1") "d1" [] "A" "a@x.com").2.length
      = List.length ([] : Store) + 1 ∧
    ((createAccount (fun _ => .ok "acc1") "d2"
        (createAccount (fun _ => .ok "acc1") "d1" [] "A" "a@x.com").2
        "A" "a@x.com").2.filter fun d => d.email == "a@x.com").length = 1 :=
  createAccount_idempotent (fun _ => .ok "acc1") "d1" "d2" [] "A" "a@x.com" "acc1"
    rfl rfl

/-- C10: when the OTP dispatch fails, `createAccount` returns a tagged
failure and leaves the identity store unchanged; no account document is
created even when none existed for the email. -/
theorem createAccount_otp_failure_leaves_store
    (issuer : String → Except String String) (newDocId : String) (db : Store)
    (fullName email e : String)
    (h : issuer email = .error e) :
    createAccount issuer newDocId db fullName email
      = (.err (if e == "" then "Failed to send email OTP" else e), db) := by
  by_cases he : (e == "") = true <;>
    simp [createAccount, sendEmailOTP, h, he]

/-- C9 counterexample: the round-trip claim is false for the empty byte
array.  The encoder yields the empty string, which fails the base64url
validity check, so the decoder throws instead of returning the empty
buffer. -/
theorem base64url_empty_not_roundtrip :
    bufferToBase64Url [] = [] ∧
    isBase64Url (bufferToBase64Url []) = false ∧
    base64UrlToBuffer (bufferToBase64Url [])
      = .error "Invalid base64url string." :=
  ⟨rfl, rfl, rfl⟩

/-- C9 (amended): for every non-empty byte array the encoding passes the
base64url validity check and decoding it recovers the bytes exactly. -/
theorem base64url_roundtrip (b : List Nat) (hne : b ≠ []) (hlt : ∀ x ∈ b, x < 256) :
    isBase64Url (bufferToBase64Url b) = true ∧
    base64UrlToBuffer (bufferToBase64Url b) = .ok b := by
  have hcore := bufferToBase64Url_eq_core b hlt
  have hchars : ∀ c ∈ (b64core b).map stdToUrl, isB64UrlChar c = true := by
    intro c hc
    obtain ⟨a, ha, rfl⟩ := List.mem_map.mp hc
    obtain ⟨n, hn, rfl⟩ := mem_b64core b hlt a ha
    exact isB64UrlChar_stdToUrl_b64Char n hn
  have h61 : ∀ c ∈ (b64core b).map stdToUrl, c ≠ 61 := by
    intro c hc
    obtain ⟨a, ha, rfl⟩ := List.mem_map.mp hc
    obtain ⟨n, hn, rfl⟩ := mem_b64core b hlt a ha
    exact stdToUrl_b64Char_ne_61 n
  have hnonempty : (b64core b).map stdToUrl ≠ [] := by
    simp only [ne_eq, List.map_eq_nil_iff]
    exact b64core_ne_nil b hne
  have hvalid : isBase64Url (bufferToBase64Url b) = true := by
    rw [hcore]
    exact isBase64Url_of_chars _ hnonempty hchars h61
  refine ⟨hvalid, ?_⟩
  unfold base64UrlToBuffer
  rw [hvalid]
  simp only [Bool.not_true, Bool.false_eq_true, reduceIte]
  rw [hcore]
  have hmap : ((b64core b).map stdToUrl).map urlToStd = b64core b := by
    rw [List.map_map]
    have hcong : ∀ a ∈ b64core b, (urlToStd ∘ stdToUrl) a = id a := by
      intro a ha
      obtain ⟨n, hn, rfl⟩ := mem_b64core b hlt a ha
      simpa using urlToStd_stdToUrl_b64Char n hn
    rw [List.map_congr_left hcong, List.map_id]
  have hpad : min 2 ((4 - ((b64core b).map stdToUrl).length % 4) % 4)
      = padLen b.length := by
    rw [List.length_map]
    have h4 := b64core_length_mod4 b
    unfold padLen
    split_ifs at h4 ⊢ <;> omega
  rw [hmap, hpad, ← btoa_eq_core_pad, atob_btoa b hlt]

/-- Witness for the amended C9 theorem on a concrete two-byte buffer. -/
theorem base64url_roundtrip_witness :
    ([104, 105] : List Nat) ≠ [] ∧
    isBase64Url (bufferToBase64Url [104, 105]) = true ∧
    base64UrlToBuffer (bufferToBase64Url [104, 105]) = .ok [104, 105] :=
  ⟨by decide, base64url_roundtrip [104, 105] (by decide) (by decide)⟩

/-- Witness for C10: a failing issuer on the empty store. -/
theorem createAccount_otp_failure_leaves_store_witness :
    createAccount (fun _ => .error "smtp down") "d1" [] "A" "a@x.com"
      = (.err (if "smtp down" == "" then "Failed to send email OTP"
          else "smtp down"), []) :=
  createAccount_otp_failure_leaves_store
    (fun _ => .error "smtp down") "d1" [] "A" "a@x.com" "smtp down" rfl

end Mfa
